import Mathlib

/-!
Shallow embedding of `api/http/handler/kubernetes/role_bindings.go`.

The source file holds two HTTP handlers:
  * `getAllKubernetesRoleBindings`: prepares a kube client, fetches the role
    bindings with an empty namespace filter, and serializes them; each failure
    is wrapped as an internal server error (HTTP 500).
  * `deleteRoleBindings`: decodes and validates the payload (failure yields a
    400 bad-request error), obtains the proxy kube client (failure is returned
    unchanged), calls `cli.DeleteRoleBindings(payload)` (failure is wrapped as
    a 500), and on success writes an empty 204 response.

The collaborators (`prepareKubeClient`, `getProxyKubeClient`, the kube
client's `GetRoleBindings` and `DeleteRoleBindings`, payload decoding) live
outside this file's source; handlers are therefore embedded as functions of
an explicit environment holding those collaborators' results, and the
handlers additionally return the trace of cluster calls they issue, so that
"no cluster interaction happened" is a provable statement.  The kube client
operations themselves, which are not part of the given source, are modelled
from the specification and marked as such in their doc comments.
-/

/-- Embedding of `httperror.HandlerError`: an HTTP status code, a message,
and the wrapped error detail. -/
structure HandlerError where
  statusCode : Nat
  message : String
  errDetail : String
deriving Repr, DecidableEq

/-- Embedding of `httperror.InternalServerError(msg, err)`: status 500. -/
def internalServerError (msg errDetail : String) : HandlerError :=
  { statusCode := 500, message := msg, errDetail := errDetail }

/-- Embedding of `httperror.BadRequest(msg, err)`: status 400. -/
def badRequest (msg errDetail : String) : HandlerError :=
  { statusCode := 400, message := msg, errDetail := errDetail }

/-- Embedding of `models.K8sRoleBinding` as far as this file interprets it:
a `name` and a namespace `ns` (identity), plus opaque extra attributes kept
as a string. -/
structure K8sRoleBinding where
  name : String
  ns : String
  rest : String
deriving Repr, DecidableEq

/-- Embedding of `models.K8sRoleBindingDeleteRequests`, a map from namespace
to the list of role-binding names to delete there.  Following the spec's
design note, the map is represented as an ordered association list so that
the iteration order used by the batch delete is explicit. -/
abbrev K8sRoleBindingDeleteRequests := List (String × List String)

/-- A successful handler response body: `response.JSON(w, rolebindings)`
or `response.Empty(w)` (204, no body). -/
inductive Response where
  | json (body : List K8sRoleBinding)
  | empty
deriving Repr, DecidableEq

/-- One observable interaction with the cluster through the kube client. -/
inductive ClusterCall where
  | getRoleBindings (nsFilter : String)
  | deleteRoleBindings (payload : K8sRoleBindingDeleteRequests)
deriving Repr, DecidableEq

/-- Environment of `getAllKubernetesRoleBindings`: the outcome of
`handler.prepareKubeClient(r)` and the behaviour of the obtained client's
`GetRoleBindings`. -/
structure ListEnv where
  prepareKubeClient : Except HandlerError Unit
  getRoleBindings : String → Except String (List K8sRoleBinding)

/-- Embedding of the handler `getAllKubernetesRoleBindings` from
`role_bindings.go`.  Returns the handler outcome together with the list of
cluster calls issued, in order. -/
def getAllKubernetesRoleBindings (env : ListEnv) :
    Except HandlerError Response × List ClusterCall :=
  match env.prepareKubeClient with
  | .error httpErr =>
      (.error (internalServerError "unable to prepare kube client. Error: "
        httpErr.message), [])
  | .ok _ =>
      match env.getRoleBindings "" with
      | .error err =>
          (.error (internalServerError "unable to fetch rolebindings. Error: " err),
            [ClusterCall.getRoleBindings ""])
      | .ok rolebindings =>
          (.ok (Response.json rolebindings), [ClusterCall.getRoleBindings ""])

/-- Environment of `deleteRoleBindings`: the outcome of
`request.DecodeAndValidateJSONPayload`, of `h.getProxyKubeClient(r)`, and
the behaviour of the obtained client's `DeleteRoleBindings`. -/
structure DeleteEnv where
  decodePayload : Except String K8sRoleBindingDeleteRequests
  getProxyKubeClient : Except HandlerError Unit
  deleteRoleBindingsCall : K8sRoleBindingDeleteRequests → Option String

/-- Embedding of the handler `deleteRoleBindings` from `role_bindings.go`.
Returns the handler outcome together with the list of cluster calls issued,
in order. -/
def deleteRoleBindings (env : DeleteEnv) :
    Except HandlerError Response × List ClusterCall :=
  match env.decodePayload with
  | .error err => (.error (badRequest "Invalid request payload" err), [])
  | .ok payload =>
      match env.getProxyKubeClient with
      | .error handlerErr => (.error handlerErr, [])
      | .ok _ =>
          match env.deleteRoleBindingsCall payload with
          | some err =>
              (.error (internalServerError "Failed to delete role bindings" err),
                [ClusterCall.deleteRoleBindings payload])
          | none =>
              (.ok Response.empty, [ClusterCall.deleteRoleBindings payload])

/-- Cluster state for the delete model: the set of existing role-binding
identities, each a (namespace, name) pair. -/
abbrev ClusterState := List (String × String)

/-- The batch flattened to payload order: namespaces in the order supplied
by the payload, and within each namespace its names in sequence order. -/
def flattenBatch (batch : K8sRoleBindingDeleteRequests) :
    List (String × String) :=
  batch.flatMap (fun nsNames => nsNames.2.map (fun n => (nsNames.1, n)))

/-- Modelled from the spec: the kube client's `DeleteRoleBindings` (its code
is not under src/), run over an abstract per-item delete `d`.  Spec 4.3:
iterate the flattened (namespace, name) pairs strictly sequentially; the
first failing delete aborts the batch.  Returns the first error if any, the
final cluster state, and the trace of attempted pairs. -/
def deleteBatchPairs
    (d : ClusterState → String × String → Except String ClusterState) :
    ClusterState → List (String × String) →
      Option String × ClusterState × List (String × String)
  | σ, [] => (none, σ, [])
  | σ, p :: rest =>
      match d σ p with
      | .error e => (some e, σ, [p])
      | .ok σ2 =>
          ((deleteBatchPairs d σ2 rest).1,
            (deleteBatchPairs d σ2 rest).2.1,
            p :: (deleteBatchPairs d σ2 rest).2.2)

/-- Modelled from the spec: the error component of running the modelled
`DeleteRoleBindings` on a payload, as seen by the handler. -/
def runDeleteBatch
    (d : ClusterState → String × String → Except String ClusterState)
    (σ : ClusterState) (payload : K8sRoleBindingDeleteRequests) :
    Option String :=
  (deleteBatchPairs d σ (flattenBatch payload)).1

/-- Removal of one (namespace, name) identity from the cluster state. -/
def removePair (σ : ClusterState) (p : String × String) : ClusterState :=
  σ.filter (fun q => decide (q ≠ p))

/-- Modelled from the spec: a per-item delete in which deleting an absent
binding is treated as success (spec 3: duplicates are idempotent no-ops on
the second occurrence; spec 4.3: already-absent is treated as success
unless the client reports an error). -/
def deleteOneSpec (σ : ClusterState) (p : String × String) :
    Except String ClusterState :=
  .ok (removePair σ p)

/-- Modelled from the spec: structural validation of the delete payload
(the model type's `Validate` is not under src/).  Spec 3 invariant: each
namespace key maps to a non-empty sequence of names. -/
def validatePayload (payload : K8sRoleBindingDeleteRequests) : Bool :=
  payload.all (fun q => !q.2.isEmpty)

/-- Modelled from the spec: the kube client's `GetRoleBindings` (its code is
not under src/).  Spec 4.2: the empty namespace filter means all namespaces
visible to this client; a non-empty value restricts to that namespace. -/
def getRoleBindingsModel (cluster : List K8sRoleBinding)
    (visible : K8sRoleBinding → Bool) (nsFilter : String) :
    List K8sRoleBinding :=
  cluster.filter (fun b => visible b && (nsFilter == "" || b.ns == nsFilter))

/-- Modelled from the spec: the proxy-kube-client provider signals
`ClientUnavailable` as a server-side failure (spec 4.1). -/
def clientUnavailableError (msg errDetail : String) : HandlerError :=
  { statusCode := 500, message := msg, errDetail := errDetail }

/-! ### Helper lemmas about the batch-delete model -/

/-- Running the batch on `pre ++ rest` after `pre` fully succeeds continues
with `rest` from the state `pre` left behind, prepending `pre` to the trace. -/
theorem deleteBatchPairs_append_of_ok
    (d : ClusterState → String × String → Except String ClusterState) :
    ∀ (pre : List (String × String)) (σ σ' : ClusterState)
      (rest : List (String × String)),
      deleteBatchPairs d σ pre = (none, σ', pre) →
      deleteBatchPairs d σ (pre ++ rest) =
        ((deleteBatchPairs d σ' rest).1, (deleteBatchPairs d σ' rest).2.1,
          pre ++ (deleteBatchPairs d σ' rest).2.2) := by
  intro pre
  induction pre with
  | nil =>
      intro σ σ' rest h
      simp only [deleteBatchPairs, Prod.mk.injEq] at h
      obtain ⟨-, h2, -⟩ := h
      subst h2
      simp
  | cons q qs ih =>
      intro σ σ' rest h
      cases hd : d σ q with
      | error e =>
          simp only [deleteBatchPairs, hd, Prod.mk.injEq] at h
          exact absurd h.1 (by simp)
      | ok σ2 =>
          simp only [deleteBatchPairs, hd, Prod.mk.injEq, List.cons.injEq] at h
          obtain ⟨h1, h2, -, h3⟩ := h
          have hr : deleteBatchPairs d σ2 qs = (none, σ', qs) := by
            rw [← Prod.mk.eta (p := deleteBatchPairs d σ2 qs),
              ← Prod.mk.eta (p := (deleteBatchPairs d σ2 qs).2), h1, h2, h3]
          have hq : qs.append rest = qs ++ rest := rfl
          simp only [List.cons_append, deleteBatchPairs, hd, hq, ih σ2 σ' rest hr]

/-- Concrete per-item delete for witnesses: fails exactly on name `b2`,
otherwise removes the pair from the state. -/
def dEx : ClusterState → String × String → Except String ClusterState :=
  fun σ p => if p.2 = "b2" then .error "boom" else .ok (removePair σ p)

/-- Concrete starting cluster state for witnesses. -/
def clusterEx : ClusterState := [("ns1", "b1"), ("ns1", "b2"), ("ns2", "b3")]

/-- Concrete payload for witnesses: two namespaces, deletes in payload
order `(ns1, b1), (ns1, b2), (ns2, b3)`, of which the second fails. -/
def payloadEx : K8sRoleBindingDeleteRequests :=
  [("ns1", ["b1", "b2"]), ("ns2", ["b3"])]

/-- C1: the first delete failure for any (namespace, name) pair aborts the
whole batch: the error is that first failure's, the attempted trace stops at
the failing pair (no later item in payload order is attempted), the cluster
state stays at the state the earlier successful deletes produced (no
rollback), and the handler surfaces a single error describing that failing
delete with no per-item status list. -/
theorem deleteBatch_failFast_firstError
    (d : ClusterState → String × String → Except String ClusterState)
    (σ σ' : ClusterState) (pre post : List (String × String))
    (p : String × String) (e : String)
    (payload : K8sRoleBindingDeleteRequests)
    (hpre : deleteBatchPairs d σ pre = (none, σ', pre))
    (hfail : d σ' p = .error e)
    (hflat : flattenBatch payload = pre ++ p :: post) :
    deleteBatchPairs d σ (flattenBatch payload) = (some e, σ', pre ++ [p]) ∧
    (deleteRoleBindings
      { decodePayload := .ok payload
        getProxyKubeClient := .ok ()
        deleteRoleBindingsCall := runDeleteBatch d σ }).1 =
      .error (internalServerError "Failed to delete role bindings" e) := by
  have hmain : deleteBatchPairs d σ (pre ++ p :: post) = (some e, σ', pre ++ [p]) := by
    rw [deleteBatchPairs_append_of_ok d pre σ σ' (p :: post) hpre]
    simp [deleteBatchPairs, hfail]
  refine ⟨by rw [hflat]; exact hmain, ?_⟩
  simp [deleteRoleBindings, runDeleteBatch, hflat, hmain]

/-- Witness for C1 at the concrete batch `payloadEx`: the delete of
`(ns1, b2)` fails after `(ns1, b1)` succeeded, so the batch aborts there,
`(ns2, b3)` is never attempted, and the handler reports the single error. -/
theorem deleteBatch_failFast_firstError_witness :
    (deleteBatchPairs dEx clusterEx [(("ns1" : String), ("b1" : String))] =
        (none, [(("ns1" : String), ("b2" : String)), (("ns2" : String), ("b3" : String))],
          [(("ns1" : String), ("b1" : String))]) ∧
      dEx [(("ns1" : String), ("b2" : String)), (("ns2" : String), ("b3" : String))]
          ("ns1", "b2") = .error "boom" ∧
      flattenBatch payloadEx =
        [(("ns1" : String), ("b1" : String))] ++ ("ns1", "b2") :: [("ns2", "b3")]) ∧
    (deleteBatchPairs dEx clusterEx (flattenBatch payloadEx) =
        (some "boom", [(("ns1" : String), ("b2" : String)), (("ns2" : String), ("b3" : String))],
          [(("ns1" : String), ("b1" : String))] ++ [("ns1", "b2")]) ∧
      (deleteRoleBindings
        { decodePayload := .ok payloadEx
          getProxyKubeClient := .ok ()
          deleteRoleBindingsCall := runDeleteBatch dEx clusterEx }).1 =
        .error (internalServerError "Failed to delete role bindings" "boom")) :=
  ⟨⟨by decide, by rfl, by decide⟩,
    deleteBatch_failFast_firstError dEx clusterEx
      [("ns1", "b2"), ("ns2", "b3")] [("ns1", "b1")] [("ns2", "b3")]
      ("ns1", "b2") "boom" payloadEx (by decide) (by rfl) (by decide)⟩

/-- C2: a payload failing structural validation is rejected with a 400
bad-request error before any cluster interaction: the trace of cluster
calls is empty, the result does not depend on the cluster-client provider
at all, and the 400 status is distinct from the 500 used for the
server-side error categories. -/
theorem deleteRoleBindings_invalidPayload_rejected
    (env : DeleteEnv) (e : String)
    (hdec : env.decodePayload = .error e) :
    deleteRoleBindings env = (.error (badRequest "Invalid request payload" e), []) ∧
    (badRequest "Invalid request payload" e).statusCode = 400 ∧
    (badRequest "Invalid request payload" e).statusCode ≠ 500 ∧
    ∀ g : Except HandlerError Unit,
      deleteRoleBindings { env with getProxyKubeClient := g } =
        deleteRoleBindings env := by
  refine ⟨by simp [deleteRoleBindings, hdec], rfl, by simp [badRequest], ?_⟩
  intro g
  simp [deleteRoleBindings, hdec]

/-- Concrete delete environment whose payload decoding fails. -/
def denvBad : DeleteEnv :=
  { decodePayload := .error "bad"
    getProxyKubeClient := .ok ()
    deleteRoleBindingsCall := fun _ => none }

/-- Witness for C2: a concrete environment whose payload decoding fails. -/
theorem deleteRoleBindings_invalidPayload_rejected_witness :
    denvBad.decodePayload = .error "bad" ∧
    (deleteRoleBindings denvBad =
      (.error (badRequest "Invalid request payload" "bad"), []) ∧
      (badRequest "Invalid request payload" "bad").statusCode = 400 ∧
      (badRequest "Invalid request payload" "bad").statusCode ≠ 500 ∧
      ∀ g : Except HandlerError Unit,
        deleteRoleBindings { denvBad with getProxyKubeClient := g } =
          deleteRoleBindings denvBad) :=
  ⟨rfl, deleteRoleBindings_invalidPayload_rejected denvBad "bad" rfl⟩

/-- C3: when the scoped cluster client cannot be obtained, the list handler
yields a 500 server-side error and the bulk-delete handler yields the
provider's ClientUnavailable error, which the spec models as server-side
(status 500); in both cases the trace of cluster calls is empty, so no
cluster read or mutation is performed. -/
theorem clientUnavailable_serverError_noClusterCall
    (lenv : ListEnv) (denv : DeleteEnv) (he : HandlerError)
    (msg det : String) (payload : K8sRoleBindingDeleteRequests)
    (hprep : lenv.prepareKubeClient = .error he)
    (hdec : denv.decodePayload = .ok payload)
    (hproxy : denv.getProxyKubeClient = .error (clientUnavailableError msg det)) :
    ((getAllKubernetesRoleBindings lenv).1 =
        .error (internalServerError "unable to prepare kube client. Error: "
          he.message) ∧
      (internalServerError "unable to prepare kube client. Error: "
        he.message).statusCode = 500 ∧
      (getAllKubernetesRoleBindings lenv).2 = []) ∧
    ((deleteRoleBindings denv).1 = .error (clientUnavailableError msg det) ∧
      (clientUnavailableError msg det).statusCode = 500 ∧
      (deleteRoleBindings denv).2 = []) := by
  constructor
  · refine ⟨?_, rfl, ?_⟩ <;> simp [getAllKubernetesRoleBindings, hprep]
  · refine ⟨?_, rfl, ?_⟩ <;> simp [deleteRoleBindings, hdec, hproxy]

/-- Concrete provider failure for the C3 witness. -/
def heDown : HandlerError :=
  { statusCode := 502, message := "bad gateway", errDetail := "down" }

/-- Concrete list environment whose client preparation fails. -/
def lenvDown : ListEnv :=
  { prepareKubeClient := .error heDown
    getRoleBindings := fun _ => .ok [] }

/-- Concrete delete environment whose proxy-client acquisition fails. -/
def denvDown : DeleteEnv :=
  { decodePayload := .ok payloadEx
    getProxyKubeClient := .error (clientUnavailableError "m" "d")
    deleteRoleBindingsCall := fun _ => none }

/-- Witness for C3: concrete environments whose client acquisition fails. -/
theorem clientUnavailable_serverError_noClusterCall_witness :
    (lenvDown.prepareKubeClient = .error heDown ∧
      denvDown.decodePayload = .ok payloadEx ∧
      denvDown.getProxyKubeClient = .error (clientUnavailableError "m" "d")) ∧
    (((getAllKubernetesRoleBindings lenvDown).1 =
        .error (internalServerError "unable to prepare kube client. Error: "
          heDown.message) ∧
      (internalServerError "unable to prepare kube client. Error: "
        heDown.message).statusCode = 500 ∧
      (getAllKubernetesRoleBindings lenvDown).2 = []) ∧
    ((deleteRoleBindings denvDown).1 = .error (clientUnavailableError "m" "d") ∧
      (clientUnavailableError "m" "d").statusCode = 500 ∧
      (deleteRoleBindings denvDown).2 = [])) :=
  ⟨⟨rfl, rfl, rfl⟩,
    clientUnavailable_serverError_noClusterCall lenvDown denvDown heDown
      "m" "d" payloadEx rfl rfl rfl⟩

/-- If each pair in the list deletes successfully from any state, the batch
reports no error and attempts every pair in order. -/
theorem deleteBatchPairs_all_ok
    (d : ClusterState → String × String → Except String ClusterState) :
    ∀ (l : List (String × String)) (σ : ClusterState),
      (∀ σ0 p, p ∈ l → ∃ σ1, d σ0 p = .ok σ1) →
      (deleteBatchPairs d σ l).1 = none ∧ (deleteBatchPairs d σ l).2.2 = l := by
  intro l
  induction l with
  | nil => intro σ h; exact ⟨rfl, rfl⟩
  | cons p rest ih =>
      intro σ h
      obtain ⟨σ1, hs⟩ := h σ p (by simp)
      have hr := ih σ1 (fun σ0 q hq => h σ0 q (List.mem_cons_of_mem _ hq))
      simp [deleteBatchPairs, hs, hr.1, hr.2]

/-- C4: when every per-item delete of the batch succeeds, the modelled
DeleteRoleBindings reports no error and the handler returns the empty
success response (a bare 204 with no body and no per-item detail). -/
theorem deleteBatch_allOk_emptySuccess
    (d : ClusterState → String × String → Except String ClusterState)
    (σ : ClusterState) (payload : K8sRoleBindingDeleteRequests)
    (hok : ∀ σ0 p, p ∈ flattenBatch payload → ∃ σ1, d σ0 p = .ok σ1) :
    runDeleteBatch d σ payload = none ∧
    deleteRoleBindings
      { decodePayload := .ok payload
        getProxyKubeClient := .ok ()
        deleteRoleBindingsCall := runDeleteBatch d σ } =
      (.ok Response.empty, [ClusterCall.deleteRoleBindings payload]) := by
  have h := deleteBatchPairs_all_ok d (flattenBatch payload) σ hok
  refine ⟨h.1, ?_⟩
  simp [deleteRoleBindings, runDeleteBatch, h.1]

/-- Witness for C4: with the spec-modelled per-item delete (which always
succeeds) the concrete batch returns the empty success response. -/
theorem deleteBatch_allOk_emptySuccess_witness :
    (∀ σ0 p, p ∈ flattenBatch payloadEx → ∃ σ1, deleteOneSpec σ0 p = .ok σ1) ∧
    (runDeleteBatch deleteOneSpec clusterEx payloadEx = none ∧
      deleteRoleBindings
        { decodePayload := .ok payloadEx
          getProxyKubeClient := .ok ()
          deleteRoleBindingsCall := runDeleteBatch deleteOneSpec clusterEx } =
        (.ok Response.empty, [ClusterCall.deleteRoleBindings payloadEx])) :=
  ⟨fun σ0 p _ => ⟨removePair σ0 p, rfl⟩,
    deleteBatch_allOk_emptySuccess deleteOneSpec clusterEx payloadEx
      (fun σ0 p _ => ⟨removePair σ0 p, rfl⟩)⟩

/-- C5: the list handler's only cluster call passes the empty-string
namespace filter to GetRoleBindings, and, for the spec-modelled reader, the
empty-filter result is membership-equal to the union over namespaces of the
per-namespace results and has no duplicates when the cluster records are
distinct. -/
theorem list_emptyFilter_unionNoDup
    (lenv : ListEnv) (cluster : List K8sRoleBinding)
    (visible : K8sRoleBinding → Bool)
    (hprep : lenv.prepareKubeClient = .ok ()) :
    (getAllKubernetesRoleBindings lenv).2 = [ClusterCall.getRoleBindings ""] ∧
    (∀ b, b ∈ getRoleBindingsModel cluster visible "" ↔
      b ∈ getRoleBindingsModel cluster visible b.ns) ∧
    (cluster.Nodup → (getRoleBindingsModel cluster visible "").Nodup) := by
  refine ⟨?_, ?_, ?_⟩
  · cases hg : lenv.getRoleBindings "" <;>
      simp [getAllKubernetesRoleBindings, hprep, hg]
  · intro b
    simp [getRoleBindingsModel]
  · exact fun h => h.filter _

/-- Concrete list environment whose client preparation succeeds. -/
def lenvOk : ListEnv :=
  { prepareKubeClient := .ok ()
    getRoleBindings := fun _ => .ok [] }

/-- Concrete cluster content for the C5 witness. -/
def clusterBindingsEx : List K8sRoleBinding :=
  [{ name := "b1", ns := "ns1", rest := "r1" },
    { name := "b2", ns := "ns1", rest := "r2" },
    { name := "b3", ns := "ns2", rest := "r3" }]

/-- Witness for C5 at a concrete environment and cluster. -/
theorem list_emptyFilter_unionNoDup_witness :
    lenvOk.prepareKubeClient = .ok () ∧
    ((getAllKubernetesRoleBindings lenvOk).2 = [ClusterCall.getRoleBindings ""] ∧
      (∀ b, b ∈ getRoleBindingsModel clusterBindingsEx (fun _ => true) "" ↔
        b ∈ getRoleBindingsModel clusterBindingsEx (fun _ => true) b.ns) ∧
      (clusterBindingsEx.Nodup →
        (getRoleBindingsModel clusterBindingsEx (fun _ => true) "").Nodup)) :=
  ⟨rfl, list_emptyFilter_unionNoDup lenvOk clusterBindingsEx (fun _ => true) rfl⟩

/-- C6: when fetching fails after a client was obtained, the list handler
returns the 500 fetch error; moreover every run of the handler returns
either the full fetched list or an error, never a partial listing. -/
theorem list_fetchFailed_atomic
    (lenv : ListEnv) (err : String)
    (hprep : lenv.prepareKubeClient = .ok ())
    (hget : lenv.getRoleBindings "" = .error err) :
    (getAllKubernetesRoleBindings lenv).1 =
      .error (internalServerError "unable to fetch rolebindings. Error: " err) ∧
    (internalServerError "unable to fetch rolebindings. Error: " err).statusCode
      = 500 ∧
    ∀ env2 : ListEnv,
      (∃ l, env2.getRoleBindings "" = .ok l ∧
        (getAllKubernetesRoleBindings env2).1 = .ok (Response.json l)) ∨
      (∃ he, (getAllKubernetesRoleBindings env2).1 = .error he) := by
  refine ⟨by simp [getAllKubernetesRoleBindings, hprep, hget], rfl, ?_⟩
  intro env2
  cases hp : env2.prepareKubeClient with
  | error he =>
      refine Or.inr ⟨internalServerError "unable to prepare kube client. Error: "
        he.message, ?_⟩
      simp [getAllKubernetesRoleBindings, hp]
  | ok u =>
      cases u
      cases hg : env2.getRoleBindings "" with
      | error e =>
          refine Or.inr ⟨internalServerError "unable to fetch rolebindings. Error: "
            e, ?_⟩
          simp [getAllKubernetesRoleBindings, hp, hg]
      | ok l =>
          refine Or.inl ⟨l, rfl, ?_⟩
          simp [getAllKubernetesRoleBindings, hp, hg]

/-- Concrete list environment whose fetch fails after the client is
prepared. -/
def lenvFetchFail : ListEnv :=
  { prepareKubeClient := .ok ()
    getRoleBindings := fun _ => .error "network down" }

/-- Witness for C6 at a concrete environment with a failing fetch. -/
theorem list_fetchFailed_atomic_witness :
    (lenvFetchFail.prepareKubeClient = .ok () ∧
      lenvFetchFail.getRoleBindings "" = .error "network down") ∧
    ((getAllKubernetesRoleBindings lenvFetchFail).1 =
      .error (internalServerError "unable to fetch rolebindings. Error: "
        "network down") ∧
    (internalServerError "unable to fetch rolebindings. Error: "
      "network down").statusCode = 500 ∧
    ∀ env2 : ListEnv,
      (∃ l, env2.getRoleBindings "" = .ok l ∧
        (getAllKubernetesRoleBindings env2).1 = .ok (Response.json l)) ∨
      (∃ he, (getAllKubernetesRoleBindings env2).1 = .error he)) :=
  ⟨⟨rfl, rfl⟩, list_fetchFailed_atomic lenvFetchFail "network down" rfl rfl⟩

/-- C7: an accepted payload (one passing the spec-modelled validation) maps
every namespace key to a non-empty name sequence, and with the
spec-modelled per-item delete a duplicated (namespace, name) pair is an
idempotent no-op on its second occurrence: deleting it again from the state
its first deletion produced succeeds and leaves that state unchanged. -/
theorem acceptedBatch_nonEmpty_dupIdempotent
    (payload : K8sRoleBindingDeleteRequests) (σ : ClusterState)
    (p : String × String)
    (hval : validatePayload payload = true) :
    (∀ q ∈ payload, q.2 ≠ []) ∧
    deleteOneSpec (removePair σ p) p = .ok (removePair σ p) := by
  constructor
  · intro q hq
    have h1 := List.all_eq_true.mp hval q hq
    intro hnil
    rw [hnil] at h1
    simp at h1
  · unfold deleteOneSpec
    congr 1
    simp [removePair, List.filter_filter, Bool.and_self]

/-- Witness for C7 at the concrete payload and cluster state. -/
theorem acceptedBatch_nonEmpty_dupIdempotent_witness :
    validatePayload payloadEx = true ∧
    ((∀ q ∈ payloadEx, q.2 ≠ []) ∧
      deleteOneSpec (removePair clusterEx ("ns1", "b1")) ("ns1", "b1") =
        .ok (removePair clusterEx ("ns1", "b1"))) :=
  ⟨by decide,
    acceptedBatch_nonEmpty_dupIdempotent payloadEx clusterEx ("ns1", "b1")
      (by decide)⟩

/-- C8: the two handlers report client-acquisition failure differently.
The list handler wraps the preparation failure into a fresh 500
internal-server-error with its own fixed message, while the bulk-delete
handler returns the provider's error value unchanged, so the bulk-delete
response carries whatever status code and message the provider chose. -/
theorem clientFailure_wrap_vs_passthrough
    (lenv : ListEnv) (denv : DeleteEnv) (he hd : HandlerError)
    (payload : K8sRoleBindingDeleteRequests)
    (hprep : lenv.prepareKubeClient = .error he)
    (hdec : denv.decodePayload = .ok payload)
    (hproxy : denv.getProxyKubeClient = .error hd) :
    (getAllKubernetesRoleBindings lenv).1 =
      .error (internalServerError "unable to prepare kube client. Error: "
        he.message) ∧
    (internalServerError "unable to prepare kube client. Error: "
      he.message).statusCode = 500 ∧
    (deleteRoleBindings denv).1 = .error hd := by
  refine ⟨?_, rfl, ?_⟩
  · simp [getAllKubernetesRoleBindings, hprep]
  · simp [deleteRoleBindings, hdec, hproxy]

/-- Concrete 404 provider failure, to show the bulk-delete path forwards a
non-500 status untouched. -/
def heNotFound : HandlerError :=
  { statusCode := 404, message := "not found", errDetail := "nf" }

/-- Concrete delete environment whose proxy-client acquisition fails with a
404 error. -/
def denvNotFound : DeleteEnv :=
  { decodePayload := .ok payloadEx
    getProxyKubeClient := .error heNotFound
    deleteRoleBindingsCall := fun _ => none }

/-- Witness for C8: the provider error carries status 404; the list handler
still answers 500 while the bulk-delete handler forwards the 404 error. -/
theorem clientFailure_wrap_vs_passthrough_witness :
    (lenvDown.prepareKubeClient = .error heDown ∧
      denvNotFound.decodePayload = .ok payloadEx ∧
      denvNotFound.getProxyKubeClient = .error heNotFound) ∧
    ((getAllKubernetesRoleBindings lenvDown).1 =
      .error (internalServerError "unable to prepare kube client. Error: "
        heDown.message) ∧
    (internalServerError "unable to prepare kube client. Error: "
      heDown.message).statusCode = 500 ∧
    (deleteRoleBindings denvNotFound).1 = .error heNotFound) ∧
    heNotFound.statusCode = 404 :=
  ⟨⟨rfl, rfl, rfl⟩,
    clientFailure_wrap_vs_passthrough lenvDown denvNotFound heDown heNotFound
      payloadEx rfl rfl rfl, rfl⟩

/-- C9: every error reported by the client's batch delete is mapped to the
single 500 internal-server-error response: the handler never produces a 404
or a 403 from that error at this layer. -/
theorem deleteFailure_always500
    (env : DeleteEnv) (payload : K8sRoleBindingDeleteRequests) (err : String)
    (hdec : env.decodePayload = .ok payload)
    (hcli : env.getProxyKubeClient = .ok ())
    (hdel : env.deleteRoleBindingsCall payload = some err) :
    (deleteRoleBindings env).1 =
      .error (internalServerError "Failed to delete role bindings" err) ∧
    (internalServerError "Failed to delete role bindings" err).statusCode = 500 ∧
    (internalServerError "Failed to delete role bindings" err).statusCode ≠ 404 ∧
    (internalServerError "Failed to delete role bindings" err).statusCode ≠ 403 := by
  refine ⟨?_, rfl, by simp [internalServerError], by simp [internalServerError]⟩
  simp [deleteRoleBindings, hdec, hcli, hdel]

/-- Concrete delete environment whose client batch delete fails. -/
def denvDelFail : DeleteEnv :=
  { decodePayload := .ok payloadEx
    getProxyKubeClient := .ok ()
    deleteRoleBindingsCall := fun _ => some "boom" }

/-- Witness for C9 at a concrete failing batch delete. -/
theorem deleteFailure_always500_witness :
    (denvDelFail.decodePayload = .ok payloadEx ∧
      denvDelFail.getProxyKubeClient = .ok () ∧
      denvDelFail.deleteRoleBindingsCall payloadEx = some "boom") ∧
    ((deleteRoleBindings denvDelFail).1 =
      .error (internalServerError "Failed to delete role bindings" "boom") ∧
    (internalServerError "Failed to delete role bindings" "boom").statusCode
      = 500 ∧
    (internalServerError "Failed to delete role bindings" "boom").statusCode
      ≠ 404 ∧
    (internalServerError "Failed to delete role bindings" "boom").statusCode
      ≠ 403) :=
  ⟨⟨rfl, rfl, rfl⟩,
    deleteFailure_always500 denvDelFail payloadEx "boom" rfl rfl rfl⟩

/-- C10: once the payload is decoded and the client obtained, the handler
issues exactly one cluster call, carrying the decoded payload itself with
no reordering, deduplication, filtering, or any other transformation. -/
theorem deleteRoleBindings_passesPayloadUnchanged
    (env : DeleteEnv) (payload : K8sRoleBindingDeleteRequests)
    (hdec : env.decodePayload = .ok payload)
    (hcli : env.getProxyKubeClient = .ok ()) :
    (deleteRoleBindings env).2 = [ClusterCall.deleteRoleBindings payload] := by
  cases hd : env.deleteRoleBindingsCall payload <;>
    simp [deleteRoleBindings, hdec, hcli, hd]

/-- Witness for C10 at a concrete accepted batch. -/
theorem deleteRoleBindings_passesPayloadUnchanged_witness :
    (denvDelFail.decodePayload = .ok payloadEx ∧
      denvDelFail.getProxyKubeClient = .ok ()) ∧
    (deleteRoleBindings denvDelFail).2 =
      [ClusterCall.deleteRoleBindings payloadEx] :=
  ⟨⟨rfl, rfl⟩,
    deleteRoleBindings_passesPayloadUnchanged denvDelFail payloadEx rfl rfl⟩
